import Mathlib

/-!
Verification of `saleor/webhook/serializers.py`: the checkout-line payload
builders (`serialize_checkout_lines_with_taxes`,
`serialize_checkout_lines_without_taxes`) and the attribute serializer
(`serialize_product_or_variant_attributes`).

Python `Decimal` values are embedded as a scaled integer (mantissa and a
number of decimal places), dictionaries as ordered association lists over a
tagged value type, and exceptions as the `Except` monad.  External
collaborators that are not part of the source file (the money quantizer,
the price-quoting collaborator, the global-identifier encoder, the
tax-quoting collaborator, the active-discount provider) are either modelled
from the specification or passed in as explicit parameters.
-/

namespace Saleor

/-- Embedding of Python `Decimal`: the value is `m / 10 ^ e`.  The exponent
is kept so that `"5.00"` and `"5"` stay distinguishable, as they are for
`str` on Python decimals. -/
structure Dec where
  m : Int
  e : Nat
  deriving Repr, DecidableEq

/-- Round-half-even on naturals: `n / d` with ties going to the even
quotient, as Python `Decimal.quantize` does by default. -/
def rheNat (n : Nat) (d : Nat) : Nat :=
  let q := n / d
  let r := n % d
  if 2 * r < d then q
  else if d < 2 * r then q + 1
  else if q % 2 = 0 then q else q + 1

/-- Round-half-even for integers, rounding the absolute value and
re-applying the sign (Python decimals round by magnitude). -/
def roundHalfEvenInt (m : Int) (d : Nat) : Int :=
  if m < 0 then - (rheNat m.natAbs d : Int) else (rheNat m.natAbs d : Int)

/-- Decimal-string rendering of a `Dec`, as Python `str` renders a
`Decimal`: the sign, the integer digits, and exactly `e` fractional
digits when `e > 0`. -/
def decStr (d : Dec) : String :=
  let sign := if d.m < 0 then "-" else ""
  let s := toString d.m.natAbs
  if d.e = 0 then sign ++ s
  else
    let s := if s.length < d.e + 1 then
        String.mk (List.replicate (d.e + 1 - s.length) '0') ++ s
      else s
    sign ++ s.take (s.length - d.e) ++ "." ++ s.drop (s.length - d.e)

/-- Modelled from the spec: the currency table consulted by the Money
Quantizer, giving the number of minor-unit decimal places of a currency
(2 for most currencies, a table lookup rather than a constant). -/
def currencyFraction (currency : String) : Nat :=
  if currency = "JPY" then 0
  else if currency = "KWD" then 3
  else 2

/-- Modelled from the spec: the Money Quantizer `quantize(amount,
currency)` of `saleor.core.prices.quantize_price`, absent from the sources:
it rounds the amount to the minor-unit precision of the currency,
deterministically and without side effects. -/
def quantize_price (amount : Dec) (currency : String) : Dec :=
  let p := currencyFraction currency
  if amount.e ≤ p then ⟨amount.m * (10 : Int) ^ (p - amount.e), p⟩
  else ⟨roundHalfEvenInt amount.m (10 ^ (amount.e - p)), p⟩

/-- A monetary amount (`prices.Money`); the currency is implicit, as the
payload code never reads it off the money object. -/
structure Money where
  amount : Dec
  deriving Repr, DecidableEq

/-- A `prices.TaxedMoney` pair: net and gross amounts. -/
structure TaxedMoney where
  net : Money
  gross : Money
  deriving Repr, DecidableEq

/-- Source `get_base_price`: select the gross or the net amount of a taxed
money pair according to the `use_gross_as_base_price` flag. -/
def get_base_price (price : TaxedMoney) (use_gross_as_base_price : Bool) : Dec :=
  if use_gross_as_base_price then price.gross.amount
  else price.net.amount

/-- Modelled from the spec: the opaque global-identifier encoder
`graphene.Node.to_global_id(type_name, raw_id)`, deterministic and
injective per pair; its exact output shape is opaque to this core. -/
def to_global_id (typeName : String) (rawId : String) : String :=
  typeName ++ ":" ++ rawId

/-- Rendering of a nullable raw id before it is handed to the encoder
(Python passes the value through `str`, where `None` prints as "None"). -/
def idStr (rawId : Option Nat) : String :=
  match rawId with
  | some n => toString n
  | none => "None"

/-- Attribute input-type constant `AttributeInputType.REFERENCE`. -/
def inputTypeReference : String := "reference"

/-- Attribute entity-type constant `AttributeEntityType.PAGE`. -/
def entityTypePage : String := "Page"

/-- Attribute entity-type constant `AttributeEntityType.PRODUCT`. -/
def entityTypeProduct : String := "Product"

/-- An attribute definition: input type, entity type (meaningful for
reference attributes only), descriptive fields. -/
structure Attribute where
  name : String
  slug : String
  input_type : String
  entity_type : Option String
  unit : Option String
  deriving Repr, DecidableEq

/-- An attribute value row.  All payload columns are nullable; which one is
semantically meaningful is decided by the owning attribute's input type. -/
structure AttrValue where
  name : String
  slug : String
  value : Option String
  rich_text : Option String
  boolean : Option Bool
  date_time : Option String
  date : Option String
  reference_page_id : Option Nat
  reference_product_id : Option Nat
  file_url : Option String
  content_type : Option String
  deriving Repr, DecidableEq

/-- One assigned attribute of a product or variant: the attribute id of
the assignment, the attribute itself and its values, in assignment order. -/
structure AttrAssignment where
  attribute_id : Nat
  attr : Attribute
  values : List AttrValue
  deriving Repr, DecidableEq

/-- The `file` sub-record of a serialized attribute value. -/
structure FileRecord where
  content_type : Option String
  file_url : String
  deriving Repr, DecidableEq

/-- The fixed-schema output record for one attribute value. -/
structure ValueRecord where
  name : String
  slug : String
  value : Option String
  rich_text : Option String
  boolean : Option Bool
  date_time : Option String
  date : Option String
  reference : Option String
  file : Option FileRecord
  deriving Repr, DecidableEq

/-- The output record for one assigned attribute. -/
structure AttrRecord where
  id : String
  name : String
  input_type : String
  slug : String
  entity_type : Option String
  unit : Option String
  values : List ValueRecord
  deriving Repr, DecidableEq

/-- Source `_prepare_reference`: null unless the input type is reference;
for entity type Page (resp. Product) encode the referenced page id (resp.
product id) with the entity type as discriminator; any other entity type
yields null. -/
def _prepare_reference (attr : Attribute) (attr_value : AttrValue) : Option String :=
  if attr.input_type ≠ inputTypeReference then none
  else if attr.entity_type = some entityTypePage then
    some (to_global_id entityTypePage (idStr attr_value.reference_page_id))
  else if attr.entity_type = some entityTypeProduct then
    some (to_global_id entityTypeProduct (idStr attr_value.reference_product_id))
  else none

/-- Body of the inner value loop of `serialize_product_or_variant_attributes`:
the record built for one attribute value.  Note that the source fills both
the `date_time` and the `date` keys from `attr_value.date_time`, and fills
`file` only when `file_url` is truthy (non-null and non-empty). -/
def serialize_attr_value (attr : Attribute) (attr_value : AttrValue) : ValueRecord :=
  { name := attr_value.name
    slug := attr_value.slug
    value := attr_value.value
    rich_text := attr_value.rich_text
    boolean := attr_value.boolean
    date_time := attr_value.date_time
    date := attr_value.date_time
    reference := _prepare_reference attr attr_value
    file :=
      match attr_value.file_url with
      | some u => if u = "" then none else some ⟨attr_value.content_type, u⟩
      | none => none }

/-- Source `serialize_product_or_variant_attributes`, applied to the
assigned attributes of the product or variant, in assignment order. -/
def serialize_product_or_variant_attributes (attributes : List AttrAssignment) : List AttrRecord :=
  attributes.map fun a =>
    { id := to_global_id "Attribute" (toString a.attribute_id)
      name := a.attr.name
      input_type := a.attr.input_type
      slug := a.attr.slug
      entity_type := a.attr.entity_type
      unit := a.attr.unit
      values := a.values.map (serialize_attr_value a.attr) }

/-- A sales channel: the payload code reads only its currency code. -/
structure Channel where
  currency_code : String
  deriving Repr, DecidableEq

/-- A checkout: its own currency code and its channel. -/
structure Checkout where
  currency : String
  channel : Channel
  deriving Repr, DecidableEq

/-- A `CheckoutInfo` wrapper; the serializer reads only its checkout. -/
structure CheckoutInfo where
  checkout : Checkout
  deriving Repr, DecidableEq

/-- A product: name, tax-charging flag and metadata. -/
structure Product where
  name : String
  charge_taxes : Bool
  metadata : List (String × String)
  deriving Repr, DecidableEq

/-- A product type; the payload reads only its metadata. -/
structure ProductType where
  metadata : List (String × String)
  deriving Repr, DecidableEq

/-- A product variant: identity, descriptive fields, its product and its
assigned attributes. -/
structure ProductVariant where
  pk : Nat
  sku : String
  name : String
  product : Product
  attributes : List AttrAssignment
  deriving Repr, DecidableEq

/-- The variant's channel listing: carries the catalog price amount the
price-quoting collaborator starts from. -/
structure ProductVariantChannelListing where
  price_amount : Dec
  deriving Repr, DecidableEq

/-- One active discount; the price-quoting collaborator applies its
amount to the catalog price. -/
structure DiscountInfo where
  amount_off : Dec
  deriving Repr, DecidableEq

/-- A checkout line: identity, quantity, optional per-line price override,
and the pre-computed discounted unit price pair. -/
structure CheckoutLine where
  pk : Nat
  quantity : Nat
  price_override : Option Dec
  unit_price_with_discounts : TaxedMoney
  deriving Repr, DecidableEq

/-- A `CheckoutLineInfo`: the line plus its prefetched pricing context. -/
structure CheckoutLineInfo where
  line : CheckoutLine
  variant : ProductVariant
  channel_listing : ProductVariantChannelListing
  collections : List String
  product : Product
  product_type : ProductType
  deriving Repr, DecidableEq

/-- The plugins manager handed to the tax-quoting collaborator; opaque to
this core. -/
structure PluginsManager where
  deriving Repr, DecidableEq

/-- Subtraction of decimals after aligning exponents (used only inside the
modelled price-quoting collaborator). -/
def decSub (a b : Dec) : Dec :=
  let e := max a.e b.e
  ⟨a.m * (10 : Int) ^ (e - a.e) - b.m * (10 : Int) ^ (e - b.e), e⟩

/-- Modelled from the spec: the external price-quoting collaborator
`ProductVariant.get_price(product, collections, channel, channel_listing,
discounts, price_override)`, absent from the sources.  If a price override
is present it takes precedence over the catalog price entirely; otherwise
the unit price is derived from the channel listing and the discount
context.  The returned amount is not pre-quantized. -/
def get_variant_price (variant : ProductVariant) (product : Product)
    (collections : List String) (channel : Channel)
    (channel_listing : ProductVariantChannelListing)
    (discounts : List DiscountInfo) (price_override : Option Dec) : Money :=
  match price_override with
  | some p => ⟨p⟩
  | none => ⟨discounts.foldl (fun a d => decSub a d.amount_off) channel_listing.price_amount⟩

/-- Modelled from the spec: the variant's full display name, the
`display_product` helper used for the payload field `full_name`. -/
def ProductVariant.display_product (v : ProductVariant) : String :=
  v.product.name ++ " (" ++ v.name ++ ")"

/-- The variant's own opaque global identifier (`variant.get_global_id()`). -/
def ProductVariant.get_global_id (v : ProductVariant) : String :=
  to_global_id "ProductVariant" (toString v.pk)

/-- A value of the dynamically-typed payload dictionary: strings, numbers,
booleans, raw decimals, metadata maps, attribute records, or null. -/
inductive PVal where
  | s (v : String)
  | n (v : Nat)
  | b (v : Bool)
  | dec (v : Dec)
  | meta (v : List (String × String))
  | attrs (v : List AttrRecord)
  | null
  deriving Repr, DecidableEq

/-- A payload record: an ordered association list mirroring a Python dict
(insertion-ordered). -/
abbrev Payload : Type := List (String × PVal)

/-- Dictionary lookup on a payload record: the value stored at a key. -/
def lookupField (p : Payload) (k : String) : Option PVal :=
  match p with
  | [] => none
  | (k2, v) :: rest => if k2 = k then some v else lookupField rest k

/-- How the nullable `price_override` value crosses into the payload: a
present override is emitted as the raw decimal, an absent one as null. -/
def optDec (d : Option Dec) : PVal :=
  match d with
  | some p => PVal.dec p
  | none => PVal.null

/-- Source `_get_checkout_line_payload_data`: the shared base record of a
checkout line, in the source's key insertion order. -/
def _get_checkout_line_payload_data (checkout : Checkout)
    (line_info : CheckoutLineInfo) (discounts : List DiscountInfo) : Payload :=
  let channel := checkout.channel
  let currency := channel.currency_code
  let line_id := to_global_id "CheckoutLine" (toString line_info.line.pk)
  let variant := line_info.variant
  let channel_listing := line_info.channel_listing
  let collections := line_info.collections
  let product := variant.product
  let price_override := line_info.line.price_override
  let base_price := get_variant_price variant product collections channel
    channel_listing discounts price_override
  [("id", PVal.s line_id),
   ("sku", PVal.s variant.sku),
   ("variant_id", PVal.s variant.get_global_id),
   ("quantity", PVal.n line_info.line.quantity),
   ("charge_taxes", PVal.b product.charge_taxes),
   ("base_price", PVal.s (decStr (quantize_price base_price.amount currency))),
   ("currency", PVal.s currency),
   ("full_name", PVal.s variant.display_product),
   ("product_name", PVal.s product.name),
   ("variant_name", PVal.s variant.name),
   ("attributes", PVal.attrs (serialize_product_or_variant_attributes variant.attributes)),
   ("product_metadata", PVal.meta line_info.product.metadata),
   ("product_type_metadata", PVal.meta line_info.product_type.metadata),
   ("price_override", optDec price_override)]

/-- The two taxed unit prices returned by the tax-quoting collaborator for
one line (`checkout_line_unit_price`). -/
structure UnitPriceData where
  price_with_sale : TaxedMoney
  price_with_discounts : TaxedMoney
  deriving Repr, DecidableEq

/-- The record built by one iteration of the tax-inclusive loop: the base
record extended with the four string-formatted, un-requantized amounts of
the collaborator's two money pairs. -/
def with_taxes_line_record (checkout : Checkout) (line_info : CheckoutLineInfo)
    (discounts : List DiscountInfo) (upd : UnitPriceData) : Payload :=
  _get_checkout_line_payload_data checkout line_info discounts ++
  [("price_net_amount", PVal.s (decStr upd.price_with_sale.net.amount)),
   ("price_gross_amount", PVal.s (decStr upd.price_with_sale.gross.amount)),
   ("price_with_discounts_net_amount", PVal.s (decStr upd.price_with_discounts.net.amount)),
   ("price_with_discounts_gross_amount", PVal.s (decStr upd.price_with_discounts.gross.amount))]

/-- The loop of `serialize_checkout_lines_with_taxes` over the remaining
lines.  The tax-quoting collaborator `calcU` is an injected dependency
(`calculations.checkout_line_unit_price`, absent from the sources) and may
fail; Python exception propagation is embedded in the `Except` monad.  The
full original `lines` list is passed to every collaborator call, as in the
source. -/
def serialize_with_taxes_go {ε : Type}
    (calcU : PluginsManager → CheckoutInfo → List CheckoutLineInfo →
      CheckoutLineInfo → List DiscountInfo → Except ε UnitPriceData)
    (checkout_info : CheckoutInfo) (manager : PluginsManager)
    (all_lines : List CheckoutLineInfo) (discounts : List DiscountInfo) :
    List CheckoutLineInfo → Except ε (List Payload)
  | [] => Except.ok []
  | line_info :: rest => do
    let upd ← calcU manager checkout_info all_lines line_info discounts
    let tl ← serialize_with_taxes_go calcU checkout_info manager all_lines discounts rest
    Except.ok (with_taxes_line_record checkout_info.checkout line_info discounts upd :: tl)

/-- Source `serialize_checkout_lines_with_taxes`: one record per line, in
order, each combining the base record with the four tax-quoted amounts; a
collaborator failure aborts the whole call. -/
def serialize_checkout_lines_with_taxes {ε : Type}
    (calcU : PluginsManager → CheckoutInfo → List CheckoutLineInfo →
      CheckoutLineInfo → List DiscountInfo → Except ε UnitPriceData)
    (checkout_info : CheckoutInfo) (manager : PluginsManager)
    (lines : List CheckoutLineInfo) (discounts : List DiscountInfo) :
    Except ε (List Payload) :=
  serialize_with_taxes_go calcU checkout_info manager lines discounts lines

/-- The record built by one iteration of the tax-exclusive comprehension:
the base record extended with `base_price_with_discounts`, the quantized
gross-or-net selection of the line's pre-computed discounted unit price. -/
def without_taxes_line_record (checkout : Checkout) (use_gross_as_base_price : Bool)
    (line_info : CheckoutLineInfo) (discounts : List DiscountInfo) : Payload :=
  _get_checkout_line_payload_data checkout line_info discounts ++
  [("base_price_with_discounts",
    PVal.s (decStr (quantize_price
      (get_base_price line_info.line.unit_price_with_discounts use_gross_as_base_price)
      checkout.currency)))]

/-- The comprehension of `serialize_checkout_lines_without_taxes`, with the
active-discount provider `fetch_active_discounts` embedded as a call trace:
the provider's `k`-th invocation returns `fetch_active_discounts k`, and the
invocation counter is threaded through and returned.  The source calls the
provider once inside each iteration. -/
def serialize_without_taxes_go (fetch_active_discounts : Nat → List DiscountInfo)
    (checkout : Checkout) (use_gross_as_base_price : Bool) :
    List CheckoutLineInfo → Nat → List Payload × Nat
  | [], k => ([], k)
  | line_info :: rest, k =>
    let r := without_taxes_line_record checkout use_gross_as_base_price line_info
      (fetch_active_discounts k)
    let p := serialize_without_taxes_go fetch_active_discounts checkout
      use_gross_as_base_price rest (k + 1)
    (r :: p.1, p.2)

/-- Source `serialize_checkout_lines_without_taxes`: one record per line,
in order, fetching the active discount context afresh for every line. -/
def serialize_checkout_lines_without_taxes (fetch_active_discounts : Nat → List DiscountInfo)
    (checkout : Checkout) (lines : List CheckoutLineInfo)
    (use_gross_as_base_price : Bool) : List Payload :=
  (serialize_without_taxes_go fetch_active_discounts checkout use_gross_as_base_price lines 0).1

/-- Number of non-null fields of a value record among the five payload
fields named by the spec: `value`, `rich_text`, `boolean`, `date`,
`date_time`. -/
def payloadCountFive (r : ValueRecord) : Nat :=
  (if r.value.isSome then 1 else 0) + (if r.rich_text.isSome then 1 else 0) +
  (if r.boolean.isSome then 1 else 0) + (if r.date.isSome then 1 else 0) +
  (if r.date_time.isSome then 1 else 0)

/-- Number of non-null fields of a value record among `value`, `rich_text`,
`boolean` and `date_time` (the `date` mirror excluded). -/
def payloadCountScalar (r : ValueRecord) : Nat :=
  (if r.value.isSome then 1 else 0) + (if r.rich_text.isSome then 1 else 0) +
  (if r.boolean.isSome then 1 else 0) + (if r.date_time.isSome then 1 else 0)

/-- Number of populated payload columns of an attribute value row among
`value`, `rich_text`, `boolean` and `date_time` (the data model's
single-payload invariant counts these). -/
def inputPayloadCount (v : AttrValue) : Nat :=
  (if v.value.isSome then 1 else 0) + (if v.rich_text.isSome then 1 else 0) +
  (if v.boolean.isSome then 1 else 0) + (if v.date_time.isSome then 1 else 0)

/-- A date-time attribute used as a concrete input. -/
def dtAttr : Attribute := ⟨"Release", "release", "date-time", none, none⟩

/-- A value of `dtAttr` with exactly one populated payload column, its
date-time. -/
def dtVal : AttrValue :=
  ⟨"V", "v", none, none, none, some "2021-01-01T00:00:00+00:00", none,
   none, none, none, none⟩

/-- Claim C1, counterexample: a date-time attribute value with a single
populated payload column is emitted by
`serialize_product_or_variant_attributes` with both `date` and `date_time`
non-null, so more than one of the five payload fields is non-null. -/
theorem C1_counterexample :
    inputPayloadCount dtVal = 1 ∧
    (serialize_product_or_variant_attributes [⟨1, dtAttr, [dtVal]⟩]).map AttrRecord.values =
      [[serialize_attr_value dtAttr dtVal]] ∧
    ¬ payloadCountFive (serialize_attr_value dtAttr dtVal) ≤ 1 := by
  refine ⟨rfl, rfl, by decide⟩

/-- Claim C1, amended: for every record emitted by
`serialize_product_or_variant_attributes` from attribute values satisfying
the data model's single-payload invariant, at most one of `value`,
`rich_text`, `boolean`, `date_time` is non-null, and `date` always equals
`date_time` (so `date` and `date_time` are simultaneously non-null exactly
when the value's date-time payload is populated). -/
theorem C1_amended (attrs : List AttrAssignment) (r : AttrRecord) (vr : ValueRecord)
    (hr : r ∈ serialize_product_or_variant_attributes attrs)
    (hv : vr ∈ r.values)
    (hwf : ∀ a ∈ attrs, ∀ v ∈ a.values, inputPayloadCount v ≤ 1) :
    payloadCountScalar vr ≤ 1 ∧ vr.date = vr.date_time := by
  obtain ⟨a, ha, rfl⟩ := List.mem_map.1 hr
  obtain ⟨v, hvm, rfl⟩ := List.mem_map.1 hv
  exact ⟨hwf a ha v hvm, rfl⟩

/-- A boolean attribute used as a concrete input. -/
def boolAttr : Attribute := ⟨"Flag", "flag", "boolean", none, none⟩

/-- A value of `boolAttr` with exactly one populated payload column. -/
def boolVal : AttrValue :=
  ⟨"T", "t", none, none, some true, none, none, none, none, none, none⟩

/-- The assignment of `boolAttr` with the single value `boolVal`. -/
def boolAssign : AttrAssignment := ⟨1, boolAttr, [boolVal]⟩

/-- Claim C1, witness for the amended theorem at a concrete boolean
attribute value. -/
theorem C1_amended_witness :
    payloadCountScalar (serialize_attr_value boolAttr boolVal) ≤ 1 ∧
    (serialize_attr_value boolAttr boolVal).date =
      (serialize_attr_value boolAttr boolVal).date_time :=
  C1_amended [boolAssign]
    ⟨to_global_id "Attribute" (toString boolAssign.attribute_id), boolAttr.name,
      boolAttr.input_type, boolAttr.slug, boolAttr.entity_type, boolAttr.unit,
      [serialize_attr_value boolAttr boolVal]⟩
    (serialize_attr_value boolAttr boolVal)
    (by decide) (by decide) (by decide)

/-- Claim C3: the `reference` field of a serialized attribute value is the
encoder output of the entity type and the referenced page or product id
when the input type is reference and the entity type is Page or Product,
and null for every other input type or entity type. -/
theorem C3_reference (attr : Attribute) (v : AttrValue) :
    (attr.input_type = inputTypeReference → attr.entity_type = some entityTypePage →
      (serialize_attr_value attr v).reference =
        some (to_global_id entityTypePage (idStr v.reference_page_id))) ∧
    (attr.input_type = inputTypeReference → attr.entity_type = some entityTypeProduct →
      (serialize_attr_value attr v).reference =
        some (to_global_id entityTypeProduct (idStr v.reference_product_id))) ∧
    (attr.input_type ≠ inputTypeReference → (serialize_attr_value attr v).reference = none) ∧
    (attr.entity_type ≠ some entityTypePage → attr.entity_type ≠ some entityTypeProduct →
      (serialize_attr_value attr v).reference = none) := by
  refine ⟨fun h1 h2 => ?_, fun h1 h2 => ?_, fun h1 => ?_, fun h1 h2 => ?_⟩
  · simp [serialize_attr_value, _prepare_reference, h1, h2]
  · simp [serialize_attr_value, _prepare_reference, h1, h2, entityTypePage, entityTypeProduct]
  · simp [serialize_attr_value, _prepare_reference, h1]
  · simp [serialize_attr_value, _prepare_reference, h1, h2]

/-- Claim C3, witness: a reference attribute pointing at a Page with raw
id 42 yields the encoder output for Page and 42, and one pointing at an
unsupported entity type yields null. -/
theorem C3_reference_witness :
    (serialize_attr_value ⟨"Ref", "ref", inputTypeReference, some entityTypePage, none⟩
      ⟨"R", "r", none, none, none, none, none, some 42, none, none, none⟩).reference =
      some (to_global_id entityTypePage (idStr (some 42))) ∧
    (serialize_attr_value ⟨"Ref", "ref", inputTypeReference, some "Order", none⟩
      ⟨"R", "r", none, none, none, none, none, some 42, none, none, none⟩).reference = none :=
  ⟨(C3_reference ⟨"Ref", "ref", inputTypeReference, some entityTypePage, none⟩
      ⟨"R", "r", none, none, none, none, none, some 42, none, none, none⟩).1 rfl rfl,
   (C3_reference ⟨"Ref", "ref", inputTypeReference, some "Order", none⟩
      ⟨"R", "r", none, none, none, none, none, some 42, none, none, none⟩).2.2.2
      (by decide) (by decide)⟩

/-- Claim C9: every emitted value record has `date` equal to `date_time`,
both copied from the value's `date_time` payload; the value's own `date`
column is never read, so changing it does not change the output, and a
non-null `date_time` forces a non-null `date` with the same value. -/
theorem C9_date_mirror (attr : Attribute) (v : AttrValue) :
    (serialize_attr_value attr v).date = v.date_time ∧
    (serialize_attr_value attr v).date_time = v.date_time ∧
    (∀ d, serialize_attr_value attr { v with date := d } = serialize_attr_value attr v) ∧
    (v.date_time ≠ none →
      (serialize_attr_value attr v).date ≠ none ∧
      (serialize_attr_value attr v).date = (serialize_attr_value attr v).date_time) :=
  ⟨rfl, rfl, fun _ => rfl, fun h => ⟨h, rfl⟩⟩

/-- Claim C9, witness at a concrete date-time attribute value. -/
theorem C9_date_mirror_witness :
    (serialize_attr_value dtAttr dtVal).date ≠ none ∧
    (serialize_attr_value dtAttr dtVal).date = (serialize_attr_value dtAttr dtVal).date_time :=
  (C9_date_mirror dtAttr dtVal).2.2.2 (by decide)

theorem lookup_payload_base_price (checkout : Checkout) (li : CheckoutLineInfo)
    (ds : List DiscountInfo) :
    lookupField (_get_checkout_line_payload_data checkout li ds) "base_price" =
      some (PVal.s (decStr (quantize_price
        (get_variant_price li.variant li.variant.product li.collections checkout.channel
          li.channel_listing ds li.line.price_override).amount
        checkout.channel.currency_code))) := by
  simp [_get_checkout_line_payload_data, lookupField]

theorem lookup_payload_price_override (checkout : Checkout) (li : CheckoutLineInfo)
    (ds : List DiscountInfo) :
    lookupField (_get_checkout_line_payload_data checkout li ds) "price_override" =
      some (optDec li.line.price_override) := by
  simp [_get_checkout_line_payload_data, lookupField]

theorem lookup_append (p q : Payload) (k : String) :
    lookupField (p ++ q) k =
      match lookupField p k with
      | some v => some v
      | none => lookupField q k := by
  induction p with
  | nil => simp [lookupField]
  | cons hd tl ih =>
    by_cases h : hd.1 = k
    · simp [lookupField, h]
    · simp [lookupField, h, ih]

theorem lookup_without_record_bpwd (checkout : Checkout) (g : Bool)
    (li : CheckoutLineInfo) (ds : List DiscountInfo) :
    lookupField (without_taxes_line_record checkout g li ds) "base_price_with_discounts" =
      some (PVal.s (decStr (quantize_price
        (get_base_price li.line.unit_price_with_discounts g) checkout.currency))) := by
  simp [without_taxes_line_record, lookup_append, _get_checkout_line_payload_data, lookupField]

theorem lookup_without_record_base_price (checkout : Checkout) (g : Bool)
    (li : CheckoutLineInfo) (ds : List DiscountInfo) :
    lookupField (without_taxes_line_record checkout g li ds) "base_price" =
      lookupField (_get_checkout_line_payload_data checkout li ds) "base_price" := by
  simp [without_taxes_line_record, lookup_append, lookup_payload_base_price]

theorem lookup_with_record_base_price (checkout : Checkout) (li : CheckoutLineInfo)
    (ds : List DiscountInfo) (upd : UnitPriceData) :
    lookupField (with_taxes_line_record checkout li ds upd) "base_price" =
      lookupField (_get_checkout_line_payload_data checkout li ds) "base_price" := by
  simp [with_taxes_line_record, lookup_append, lookup_payload_base_price]

theorem lookup_with_record_tax_fields (checkout : Checkout) (li : CheckoutLineInfo)
    (ds : List DiscountInfo) (upd : UnitPriceData) :
    lookupField (with_taxes_line_record checkout li ds upd) "price_net_amount" =
      some (PVal.s (decStr upd.price_with_sale.net.amount)) ∧
    lookupField (with_taxes_line_record checkout li ds upd) "price_gross_amount" =
      some (PVal.s (decStr upd.price_with_sale.gross.amount)) ∧
    lookupField (with_taxes_line_record checkout li ds upd) "price_with_discounts_net_amount" =
      some (PVal.s (decStr upd.price_with_discounts.net.amount)) ∧
    lookupField (with_taxes_line_record checkout li ds upd) "price_with_discounts_gross_amount" =
      some (PVal.s (decStr upd.price_with_discounts.gross.amount)) := by
  refine ⟨?_, ?_, ?_, ?_⟩ <;>
    simp [with_taxes_line_record, lookup_append, _get_checkout_line_payload_data, lookupField]

theorem without_go_length (fetch : Nat → List DiscountInfo) (checkout : Checkout)
    (g : Bool) (ls : List CheckoutLineInfo) (k : Nat) :
    (serialize_without_taxes_go fetch checkout g ls k).1.length = ls.length := by
  induction ls generalizing k with
  | nil => simp [serialize_without_taxes_go]
  | cons hd tl ih => simp [serialize_without_taxes_go, ih]

theorem without_go_counter (fetch : Nat → List DiscountInfo) (checkout : Checkout)
    (g : Bool) (ls : List CheckoutLineInfo) (k : Nat) :
    (serialize_without_taxes_go fetch checkout g ls k).2 = k + ls.length := by
  induction ls generalizing k with
  | nil => simp [serialize_without_taxes_go]
  | cons hd tl ih => simp [serialize_without_taxes_go, ih]; omega

theorem without_go_get (fetch : Nat → List DiscountInfo) (checkout : Checkout)
    (g : Bool) (ls : List CheckoutLineInfo) (k i : Nat) (li : CheckoutLineInfo)
    (h : ls[i]? = some li) :
    (serialize_without_taxes_go fetch checkout g ls k).1[i]? =
      some (without_taxes_line_record checkout g li (fetch (k + i))) := by
  induction ls generalizing k i with
  | nil => simp at h
  | cons hd tl ih =>
    cases i with
    | zero =>
      simp at h
      subst h
      simp [serialize_without_taxes_go]
    | succ j =>
      simp at h
      have := ih (k + 1) j h
      simp [serialize_without_taxes_go, this]
      congr 2
      omega

theorem except_bind_ok {ε α β : Type} (a : α) (f : α → Except ε β) :
    (Except.ok a >>= f) = f a := rfl

theorem except_bind_error {ε α β : Type} (e : ε) (f : α → Except ε β) :
    ((Except.error e : Except ε α) >>= f) = Except.error e := rfl

theorem with_go_ok_length {ε : Type}
    (calcU : PluginsManager → CheckoutInfo → List CheckoutLineInfo →
      CheckoutLineInfo → List DiscountInfo → Except ε UnitPriceData)
    (ci : CheckoutInfo) (mgr : PluginsManager) (all : List CheckoutLineInfo)
    (ds : List DiscountInfo) (rest : List CheckoutLineInfo) (out : List Payload)
    (h : serialize_with_taxes_go calcU ci mgr all ds rest = Except.ok out) :
    out.length = rest.length := by
  induction rest generalizing out with
  | nil =>
    simp [serialize_with_taxes_go] at h
    simp [← h]
  | cons hd tl ih =>
    cases hc : calcU mgr ci all hd ds with
    | error e => simp [serialize_with_taxes_go, hc, except_bind_error, except_bind_ok] at h
    | ok upd =>
      cases ht : serialize_with_taxes_go calcU ci mgr all ds tl with
      | error e => simp [serialize_with_taxes_go, hc, ht, except_bind_error, except_bind_ok] at h
      | ok tlout =>
        simp [serialize_with_taxes_go, hc, ht, except_bind_error, except_bind_ok] at h
        simp [← h, ih tlout ht]

theorem with_go_ok_get {ε : Type}
    (calcU : PluginsManager → CheckoutInfo → List CheckoutLineInfo →
      CheckoutLineInfo → List DiscountInfo → Except ε UnitPriceData)
    (ci : CheckoutInfo) (mgr : PluginsManager) (all : List CheckoutLineInfo)
    (ds : List DiscountInfo) (rest : List CheckoutLineInfo) (out : List Payload)
    (h : serialize_with_taxes_go calcU ci mgr all ds rest = Except.ok out)
    (i : Nat) (li : CheckoutLineInfo) (hi : rest[i]? = some li) :
    ∃ upd, calcU mgr ci all li ds = Except.ok upd ∧
      out[i]? = some (with_taxes_line_record ci.checkout li ds upd) := by
  induction rest generalizing i out with
  | nil => simp at hi
  | cons hd tl ih =>
    cases hc : calcU mgr ci all hd ds with
    | error e => simp [serialize_with_taxes_go, hc, except_bind_error, except_bind_ok] at h
    | ok upd =>
      cases ht : serialize_with_taxes_go calcU ci mgr all ds tl with
      | error e => simp [serialize_with_taxes_go, hc, ht, except_bind_error, except_bind_ok] at h
      | ok tlout =>
        simp [serialize_with_taxes_go, hc, ht, except_bind_error, except_bind_ok] at h
        cases i with
        | zero =>
          simp at hi
          subst hi
          exact ⟨upd, hc, by simp [← h]⟩
        | succ j =>
          simp at hi
          obtain ⟨u, hu, hg⟩ := ih tlout ht j hi
          exact ⟨u, hu, by simp [← h, hg]⟩

theorem with_go_error_first {ε : Type}
    (calcU : PluginsManager → CheckoutInfo → List CheckoutLineInfo →
      CheckoutLineInfo → List DiscountInfo → Except ε UnitPriceData)
    (ci : CheckoutInfo) (mgr : PluginsManager) (all : List CheckoutLineInfo)
    (ds : List DiscountInfo) (pre : List CheckoutLineInfo) (bad : CheckoutLineInfo)
    (rest : List CheckoutLineInfo) (e : ε)
    (hpre : ∀ li ∈ pre, ∃ u, calcU mgr ci all li ds = Except.ok u)
    (hbad : calcU mgr ci all bad ds = Except.error e) :
    serialize_with_taxes_go calcU ci mgr all ds (pre ++ bad :: rest) = Except.error e := by
  induction pre with
  | nil => simp [serialize_with_taxes_go, hbad, except_bind_error]
  | cons hd tl ih =>
    obtain ⟨u, hu⟩ := hpre hd (List.mem_cons_self hd tl)
    have htl := ih fun li hm => hpre li (List.mem_cons_of_mem hd hm)
    simp [serialize_with_taxes_go, hu, htl, except_bind_error, except_bind_ok]

/-- Whether an optional payload value is a string. -/
def isStringVal (v : Option PVal) : Bool :=
  match v with
  | some (PVal.s _) => true
  | _ => false

/-- A USD sales channel fixture. -/
def usdChannel : Channel := ⟨"USD"⟩

/-- A checkout fixture whose own currency agrees with its channel's. -/
def usdCheckout : Checkout := ⟨"USD", usdChannel⟩

/-- The checkout-info wrapper of `usdCheckout`. -/
def usdCheckoutInfo : CheckoutInfo := ⟨usdCheckout⟩

/-- A product fixture. -/
def shirt : Product := ⟨"Shirt", true, []⟩

/-- A variant fixture of `shirt` with no attributes. -/
def shirtVariant : ProductVariant := ⟨3, "SKU1", "L", shirt, []⟩

/-- A line fixture with price override 5.00 and discounted unit prices
net 10.00 / gross 12.30. -/
def lineA : CheckoutLine := ⟨9, 2, some ⟨500, 2⟩, ⟨⟨⟨1000, 2⟩⟩, ⟨⟨1230, 2⟩⟩⟩⟩

/-- The line info of `lineA`, with catalog price 20.00. -/
def lineInfoA : CheckoutLineInfo := ⟨lineA, shirtVariant, ⟨⟨2000, 2⟩⟩, [], shirt, ⟨[]⟩⟩

/-- A line fixture without a price override. -/
def lineB : CheckoutLine := ⟨10, 1, none, ⟨⟨⟨995, 2⟩⟩, ⟨⟨1100, 2⟩⟩⟩⟩

/-- The line info of `lineB`, with catalog price 20.00. -/
def lineInfoB : CheckoutLineInfo := ⟨lineB, shirtVariant, ⟨⟨2000, 2⟩⟩, [], shirt, ⟨[]⟩⟩

/-- A discount provider fixture that always returns the empty context. -/
def fetchNone : Nat → List DiscountInfo := fun _ => []

/-- A discount provider fixture that returns a different context on every
invocation. -/
def fetchIdx : Nat → List DiscountInfo := fun k => [⟨⟨Int.ofNat (k + 1) * 100, 2⟩⟩]

/-- A tax-quoting collaborator fixture that always succeeds with fixed
quotes. -/
def calcUOk : PluginsManager → CheckoutInfo → List CheckoutLineInfo →
    CheckoutLineInfo → List DiscountInfo → Except String UnitPriceData :=
  fun _ _ _ _ _ =>
    Except.ok ⟨⟨⟨⟨900, 2⟩⟩, ⟨⟨1100, 2⟩⟩⟩, ⟨⟨⟨800, 2⟩⟩, ⟨⟨1000, 2⟩⟩⟩⟩

/-- Claim C2, counterexample: for a line whose override is 5.00 the
emitted `price_override` value is the raw decimal, not a decimal-formatted
string, unlike the other monetary fields of the payload. -/
theorem C2_counterexample :
    lookupField (_get_checkout_line_payload_data usdCheckout lineInfoA []) "price_override" =
      some (PVal.dec ⟨500, 2⟩) ∧
    isStringVal (lookupField (_get_checkout_line_payload_data usdCheckout lineInfoA [])
      "price_override") = false := by
  refine ⟨by decide, by decide⟩

/-- Claim C2, amended: when a line carries a price override, the override
is handed to the price-quoting collaborator and takes precedence over the
catalog price, so `base_price` is the quantized decimal string of the
override-derived quote; the `price_override` field reports the override
value, but as the raw decimal, not as a decimal-formatted string. -/
theorem C2_amended (checkout : Checkout) (li : CheckoutLineInfo)
    (ds : List DiscountInfo) (p : Dec) (h : li.line.price_override = some p) :
    lookupField (_get_checkout_line_payload_data checkout li ds) "base_price" =
      some (PVal.s (decStr (quantize_price p checkout.channel.currency_code))) ∧
    lookupField (_get_checkout_line_payload_data checkout li ds) "price_override" =
      some (PVal.dec p) := by
  constructor
  · have h1 := lookup_payload_base_price checkout li ds
    rw [h1]
    simp [get_variant_price, h]
  · have h2 := lookup_payload_price_override checkout li ds
    rw [h2]
    simp [optDec, h]

/-- Claim C2, witness: override 5.00 against catalog price 20.00 yields
base price "5.00" and a raw-decimal override field. -/
theorem C2_amended_witness :
    lookupField (_get_checkout_line_payload_data usdCheckout lineInfoA []) "base_price" =
      some (PVal.s (decStr (quantize_price ⟨500, 2⟩ usdCheckout.channel.currency_code))) ∧
    lookupField (_get_checkout_line_payload_data usdCheckout lineInfoA []) "price_override" =
      some (PVal.dec ⟨500, 2⟩) :=
  C2_amended usdCheckout lineInfoA [] ⟨500, 2⟩ rfl

/-- Claim C4: in the tax-exclusive flavor, `base_price_with_discounts` is
the decimal string of the quantization, in the checkout's currency, of the
gross component of the line's pre-computed discounted unit price when
`use_gross_as_base_price` is true, and of the net component otherwise; the
value involves no pricing collaborator. -/
theorem C4_base_price_with_discounts (fetch : Nat → List DiscountInfo)
    (checkout : Checkout) (lines : List CheckoutLineInfo) (g : Bool)
    (i : Nat) (li : CheckoutLineInfo) (r : Payload)
    (hline : lines[i]? = some li)
    (hout : (serialize_checkout_lines_without_taxes fetch checkout lines g)[i]? = some r) :
    lookupField r "base_price_with_discounts" =
      some (PVal.s (decStr (quantize_price
        (if g then li.line.unit_price_with_discounts.gross.amount
         else li.line.unit_price_with_discounts.net.amount)
        checkout.currency))) := by
  have hg := without_go_get fetch checkout g lines 0 i li hline
  rw [serialize_checkout_lines_without_taxes] at hout
  rw [hg] at hout
  have hr : r = without_taxes_line_record checkout g li (fetch (0 + i)) := by
    injection hout.symm
  rw [hr]
  have := lookup_without_record_bpwd checkout g li (fetch (0 + i))
  rw [this]
  simp [get_base_price]

/-- Claim C4, witness at a concrete line under the gross convention. -/
theorem C4_witness :
    lookupField (without_taxes_line_record usdCheckout true lineInfoB []) "base_price_with_discounts" =
      some (PVal.s (decStr (quantize_price
        (if true then lineInfoB.line.unit_price_with_discounts.gross.amount
         else lineInfoB.line.unit_price_with_discounts.net.amount)
        usdCheckout.currency))) :=
  C4_base_price_with_discounts fetchNone usdCheckout [lineInfoB] true 0 lineInfoB
    (without_taxes_line_record usdCheckout true lineInfoB []) (by decide) (by decide)

/-- Claim C5: in either serializer flavor, the `base_price` field of every
line record is the decimal string of the Money Quantizer applied, in the
checkout's currency, to the unquantized base-price amount returned by the
price-quoting collaborator; quantization happens only at payload emission.
The checkout's own currency code is assumed to agree with its channel's,
as the data model requires. -/
theorem C5_base_price_emission (fetch : Nat → List DiscountInfo)
    (ci : CheckoutInfo) (lines : List CheckoutLineInfo) (g : Bool)
    (hcur : ci.checkout.currency = ci.checkout.channel.currency_code) :
    (∀ i li r, lines[i]? = some li →
      (serialize_checkout_lines_without_taxes fetch ci.checkout lines g)[i]? = some r →
      lookupField r "base_price" =
        some (PVal.s (decStr (quantize_price
          (get_variant_price li.variant li.variant.product li.collections ci.checkout.channel
            li.channel_listing (fetch i) li.line.price_override).amount
          ci.checkout.currency)))) ∧
    (∀ {ε : Type} (calcU : PluginsManager → CheckoutInfo → List CheckoutLineInfo →
        CheckoutLineInfo → List DiscountInfo → Except ε UnitPriceData)
      (mgr : PluginsManager) (ds : List DiscountInfo) (out : List Payload)
      (i : Nat) (li : CheckoutLineInfo) (r : Payload),
      serialize_checkout_lines_with_taxes calcU ci mgr lines ds = Except.ok out →
      lines[i]? = some li → out[i]? = some r →
      lookupField r "base_price" =
        some (PVal.s (decStr (quantize_price
          (get_variant_price li.variant li.variant.product li.collections ci.checkout.channel
            li.channel_listing ds li.line.price_override).amount
          ci.checkout.currency)))) := by
  constructor
  · intro i li r hline hout
    have hg := without_go_get fetch ci.checkout g lines 0 i li hline
    rw [serialize_checkout_lines_without_taxes, hg] at hout
    have hr : r = without_taxes_line_record ci.checkout g li (fetch (0 + i)) := by
      injection hout.symm
    rw [hr, lookup_without_record_base_price, lookup_payload_base_price, hcur]
    simp
  · intro ε calcU mgr ds out i li r hok hline hr
    obtain ⟨upd, _, hg⟩ := with_go_ok_get calcU ci mgr lines ds lines out hok i li hline
    rw [hg] at hr
    have hre : r = with_taxes_line_record ci.checkout li ds upd := by
      injection hr.symm
    rw [hre, lookup_with_record_base_price, lookup_payload_base_price, hcur]

/-- Claim C5, witness at a concrete one-line checkout in the tax-exclusive
flavor. -/
theorem C5_witness :
    lookupField (without_taxes_line_record usdCheckout true lineInfoB (fetchNone 0)) "base_price" =
      some (PVal.s (decStr (quantize_price
        (get_variant_price lineInfoB.variant lineInfoB.variant.product lineInfoB.collections
          usdCheckout.channel lineInfoB.channel_listing (fetchNone 0)
          lineInfoB.line.price_override).amount
        usdCheckout.currency))) :=
  (C5_base_price_emission fetchNone usdCheckoutInfo [lineInfoB] true rfl).1 0 lineInfoB
    (without_taxes_line_record usdCheckout true lineInfoB (fetchNone 0)) (by decide) (by decide)

/-- Claim C6: in the tax-inclusive flavor, the four fields
`price_net_amount`, `price_gross_amount`, `price_with_discounts_net_amount`
and `price_with_discounts_gross_amount` of each line record are exactly the
string renderings of the net and gross amounts of the two money pairs the
tax-quoting collaborator returned for that line, with no re-quantization. -/
theorem C6_tax_quoted_fields {ε : Type}
    (calcU : PluginsManager → CheckoutInfo → List CheckoutLineInfo →
      CheckoutLineInfo → List DiscountInfo → Except ε UnitPriceData)
    (ci : CheckoutInfo) (mgr : PluginsManager) (lines : List CheckoutLineInfo)
    (ds : List DiscountInfo) (out : List Payload) (i : Nat)
    (li : CheckoutLineInfo) (r : Payload) (upd : UnitPriceData)
    (hok : serialize_checkout_lines_with_taxes calcU ci mgr lines ds = Except.ok out)
    (hline : lines[i]? = some li) (hr : out[i]? = some r)
    (hupd : calcU mgr ci lines li ds = Except.ok upd) :
    lookupField r "price_net_amount" =
      some (PVal.s (decStr upd.price_with_sale.net.amount)) ∧
    lookupField r "price_gross_amount" =
      some (PVal.s (decStr upd.price_with_sale.gross.amount)) ∧
    lookupField r "price_with_discounts_net_amount" =
      some (PVal.s (decStr upd.price_with_discounts.net.amount)) ∧
    lookupField r "price_with_discounts_gross_amount" =
      some (PVal.s (decStr upd.price_with_discounts.gross.amount)) := by
  obtain ⟨upd2, hupd2, hg⟩ := with_go_ok_get calcU ci mgr lines ds lines out hok i li hline
  have he : upd2 = upd := by
    rw [hupd] at hupd2
    injection hupd2 with h2
    exact h2.symm
  rw [hg] at hr
  have hre : r = with_taxes_line_record ci.checkout li ds upd2 := by
    injection hr.symm
  rw [hre, he]
  exact lookup_with_record_tax_fields ci.checkout li ds upd

/-- Claim C6, witness at a concrete one-line checkout and a concrete
collaborator. -/
theorem C6_witness :
    lookupField (with_taxes_line_record usdCheckout lineInfoB []
        ⟨⟨⟨⟨900, 2⟩⟩, ⟨⟨1100, 2⟩⟩⟩, ⟨⟨⟨800, 2⟩⟩, ⟨⟨1000, 2⟩⟩⟩⟩) "price_net_amount" =
      some (PVal.s (decStr (⟨900, 2⟩ : Dec))) ∧
    lookupField (with_taxes_line_record usdCheckout lineInfoB []
        ⟨⟨⟨⟨900, 2⟩⟩, ⟨⟨1100, 2⟩⟩⟩, ⟨⟨⟨800, 2⟩⟩, ⟨⟨1000, 2⟩⟩⟩⟩) "price_gross_amount" =
      some (PVal.s (decStr (⟨1100, 2⟩ : Dec))) ∧
    lookupField (with_taxes_line_record usdCheckout lineInfoB []
        ⟨⟨⟨⟨900, 2⟩⟩, ⟨⟨1100, 2⟩⟩⟩, ⟨⟨⟨800, 2⟩⟩, ⟨⟨1000, 2⟩⟩⟩⟩) "price_with_discounts_net_amount" =
      some (PVal.s (decStr (⟨800, 2⟩ : Dec))) ∧
    lookupField (with_taxes_line_record usdCheckout lineInfoB []
        ⟨⟨⟨⟨900, 2⟩⟩, ⟨⟨1100, 2⟩⟩⟩, ⟨⟨⟨800, 2⟩⟩, ⟨⟨1000, 2⟩⟩⟩⟩) "price_with_discounts_gross_amount" =
      some (PVal.s (decStr (⟨1000, 2⟩ : Dec))) :=
  C6_tax_quoted_fields calcUOk usdCheckoutInfo PluginsManager.mk [lineInfoB] []
    [with_taxes_line_record usdCheckout lineInfoB []
      ⟨⟨⟨⟨900, 2⟩⟩, ⟨⟨1100, 2⟩⟩⟩, ⟨⟨⟨800, 2⟩⟩, ⟨⟨1000, 2⟩⟩⟩⟩] 0 lineInfoB
    (with_taxes_line_record usdCheckout lineInfoB []
      ⟨⟨⟨⟨900, 2⟩⟩, ⟨⟨1100, 2⟩⟩⟩, ⟨⟨⟨800, 2⟩⟩, ⟨⟨1000, 2⟩⟩⟩⟩)
    ⟨⟨⟨⟨900, 2⟩⟩, ⟨⟨1100, 2⟩⟩⟩, ⟨⟨⟨800, 2⟩⟩, ⟨⟨1000, 2⟩⟩⟩⟩
    rfl rfl rfl rfl

/-- Claim C7: both serializer flavors return exactly one output record per
input line, the i-th output derived from the i-th input line, with input
order preserved and no cross-line state. -/
theorem C7_order_and_arity {ε : Type}
    (fetch : Nat → List DiscountInfo) (checkout : Checkout) (g : Bool)
    (lines : List CheckoutLineInfo)
    (calcU : PluginsManager → CheckoutInfo → List CheckoutLineInfo →
      CheckoutLineInfo → List DiscountInfo → Except ε UnitPriceData)
    (ci : CheckoutInfo) (mgr : PluginsManager) (ds : List DiscountInfo) :
    ((serialize_checkout_lines_without_taxes fetch checkout lines g).length = lines.length ∧
     ∀ i li, lines[i]? = some li →
       (serialize_checkout_lines_without_taxes fetch checkout lines g)[i]? =
         some (without_taxes_line_record checkout g li (fetch i))) ∧
    (∀ (out : List Payload), serialize_checkout_lines_with_taxes calcU ci mgr lines ds = Except.ok out →
      out.length = lines.length ∧
      ∀ (i : Nat) (li : CheckoutLineInfo), lines[i]? = some li →
        ∃ (upd : UnitPriceData), calcU mgr ci lines li ds = Except.ok upd ∧
          out[i]? = some (with_taxes_line_record ci.checkout li ds upd)) := by
  refine ⟨⟨without_go_length fetch checkout g lines 0, fun i li h => ?_⟩, fun out hok => ?_⟩
  · have := without_go_get fetch checkout g lines 0 i li h
    simpa [serialize_checkout_lines_without_taxes] using this
  · exact ⟨with_go_ok_length calcU ci mgr lines ds lines out hok,
      fun i li h => with_go_ok_get calcU ci mgr lines ds lines out hok i li h⟩

/-- Claim C7, witness at a concrete two-line checkout. -/
theorem C7_witness :
    (serialize_checkout_lines_without_taxes fetchNone usdCheckout [lineInfoA, lineInfoB] true).length = 2 ∧
    (serialize_checkout_lines_without_taxes fetchNone usdCheckout [lineInfoA, lineInfoB] true)[1]? =
      some (without_taxes_line_record usdCheckout true lineInfoB (fetchNone 1)) ∧
    ([with_taxes_line_record usdCheckout lineInfoA []
        ⟨⟨⟨⟨900, 2⟩⟩, ⟨⟨1100, 2⟩⟩⟩, ⟨⟨⟨800, 2⟩⟩, ⟨⟨1000, 2⟩⟩⟩⟩,
      with_taxes_line_record usdCheckout lineInfoB []
        ⟨⟨⟨⟨900, 2⟩⟩, ⟨⟨1100, 2⟩⟩⟩, ⟨⟨⟨800, 2⟩⟩, ⟨⟨1000, 2⟩⟩⟩⟩] : List Payload).length = 2 := by
  have h := C7_order_and_arity fetchNone usdCheckout true [lineInfoA, lineInfoB]
    calcUOk usdCheckoutInfo PluginsManager.mk []
  exact ⟨h.1.1, h.1.2 1 lineInfoB rfl, (h.2 _ rfl).1⟩

/-- Claim C8: if the tax-quoting collaborator succeeds for every line
before some failing line and fails for that line, the whole
`serialize_checkout_lines_with_taxes` call evaluates to that error,
propagated unchanged, and no records — including those of the lines
already processed — are returned. -/
theorem C8_error_propagated {ε : Type}
    (calcU : PluginsManager → CheckoutInfo → List CheckoutLineInfo →
      CheckoutLineInfo → List DiscountInfo → Except ε UnitPriceData)
    (ci : CheckoutInfo) (mgr : PluginsManager) (ds : List DiscountInfo)
    (pre : List CheckoutLineInfo) (bad : CheckoutLineInfo)
    (rest : List CheckoutLineInfo) (e : ε)
    (hpre : ∀ li ∈ pre, ∃ u, calcU mgr ci (pre ++ bad :: rest) li ds = Except.ok u)
    (hbad : calcU mgr ci (pre ++ bad :: rest) bad ds = Except.error e) :
    serialize_checkout_lines_with_taxes calcU ci mgr (pre ++ bad :: rest) ds =
      Except.error e :=
  with_go_error_first calcU ci mgr (pre ++ bad :: rest) ds pre bad rest e hpre hbad

/-- A tax-quoting collaborator fixture that fails exactly on the line with
primary key 3. -/
def calcUFail3 : PluginsManager → CheckoutInfo → List CheckoutLineInfo →
    CheckoutLineInfo → List DiscountInfo → Except String UnitPriceData :=
  fun _ _ _ li _ =>
    if li.line.pk = 3 then Except.error "tax backend down"
    else Except.ok ⟨⟨⟨⟨900, 2⟩⟩, ⟨⟨1100, 2⟩⟩⟩, ⟨⟨⟨800, 2⟩⟩, ⟨⟨1000, 2⟩⟩⟩⟩

/-- A checkout line fixture with a given primary key and no override. -/
def mkLineInfo (pk : Nat) : CheckoutLineInfo :=
  ⟨⟨pk, 1, none, ⟨⟨⟨995, 2⟩⟩, ⟨⟨1100, 2⟩⟩⟩⟩, shirtVariant, ⟨⟨2000, 2⟩⟩, [], shirt, ⟨[]⟩⟩

/-- Claim C8, witness: the collaborator fails on the 3rd of 5 lines, the
whole call evaluates to that error and returns no records. -/
theorem C8_witness :
    serialize_checkout_lines_with_taxes calcUFail3 usdCheckoutInfo PluginsManager.mk
      [mkLineInfo 1, mkLineInfo 2, mkLineInfo 3, mkLineInfo 4, mkLineInfo 5] [] =
      Except.error "tax backend down" :=
  C8_error_propagated calcUFail3 usdCheckoutInfo PluginsManager.mk []
    [mkLineInfo 1, mkLineInfo 2] (mkLineInfo 3) [mkLineInfo 4, mkLineInfo 5]
    "tax backend down"
    (by
      intro li h
      simp [List.mem_cons] at h
      rcases h with rfl | rfl
      · exact ⟨_, rfl⟩
      · exact ⟨_, rfl⟩)
    rfl

/-- Claim C10: the tax-exclusive serializer invokes the active-discount
provider once per line (the invocation counter ends at the number of
lines, not at one), and the i-th record's base payload is built from the
context returned by the provider's i-th invocation, so two lines of the
same call may be serialized under different discount contexts. -/
theorem C10_discounts_fetched_per_line (fetch : Nat → List DiscountInfo)
    (checkout : Checkout) (lines : List CheckoutLineInfo) (g : Bool) :
    (serialize_without_taxes_go fetch checkout g lines 0).2 = lines.length ∧
    ∀ i li, lines[i]? = some li →
      (serialize_checkout_lines_without_taxes fetch checkout lines g)[i]? =
        some (without_taxes_line_record checkout g li (fetch i)) := by
  refine ⟨?_, fun i li h => ?_⟩
  · have := without_go_counter fetch checkout g lines 0
    simpa using this
  · have := without_go_get fetch checkout g lines 0 i li h
    simpa [serialize_checkout_lines_without_taxes] using this

/-- Claim C10, witness: with a provider returning a fresh context per
invocation, a two-line call ends with two invocations, and the two records
are built under the distinct contexts of invocations 0 and 1. -/
theorem C10_witness :
    (serialize_without_taxes_go fetchIdx usdCheckout true [lineInfoB, lineInfoB] 0).2 = 2 ∧
    (serialize_checkout_lines_without_taxes fetchIdx usdCheckout [lineInfoB, lineInfoB] true)[0]? =
      some (without_taxes_line_record usdCheckout true lineInfoB (fetchIdx 0)) ∧
    (serialize_checkout_lines_without_taxes fetchIdx usdCheckout [lineInfoB, lineInfoB] true)[1]? =
      some (without_taxes_line_record usdCheckout true lineInfoB (fetchIdx 1)) := by
  have h := C10_discounts_fetched_per_line fetchIdx usdCheckout [lineInfoB, lineInfoB] true
  exact ⟨h.1, h.2 0 lineInfoB (by decide), h.2 1 lineInfoB (by decide)⟩

end Saleor
